import Mathlib

/-!
Verification of the detector lifecycle and render-loop orchestrator of the
live-video pose-detection demo (`demos/live_video/src/index.js`).

The JavaScript program is shallowly embedded: machine numbers (wall-clock
times, latencies) become `ℚ`, the mutable module-level variables
(`detector`, `rafId`, the `STATE` change flags, the stats accumulators)
become fields of explicit state records, asynchronous construction and
inference outcomes become explicit parameters chosen by the environment,
and each observable instant of a reconciliation or render step is recorded
in an explicit trace of `(Action × World)` pairs.
-/

namespace LiveVideo

/-- The pose-estimation models of `posedetection.SupportedModels` used by the
demo's `createDetector` switch. -/
inductive SupportedModel where
  | PoseNet
  | BlazePose
  | MoveNet
deriving DecidableEq, Repr

/-- The MoveNet model types of `posedetection.movenet.modelType`. -/
inductive MoveNetModelType where
  | SINGLEPOSE_LIGHTNING
  | SINGLEPOSE_THUNDER
  | MULTIPOSE
deriving DecidableEq, Repr

/-- The `STATE.modelConfig` fields read by `index.js`: the model type string
(possibly absent, i.e. `undefined`), the custom model URL (empty string when
unset) and the maximum-poses bound. -/
structure ModelConfig where
  type : Option String
  customModel : String
  maxPoses : ℕ
deriving DecidableEq, Repr

/-- The options record handed to the `posedetection.createDetector` factory,
one constructor per distinct option shape built by the demo's
`createDetector`. -/
inductive FactoryOptions where
  | poseNet (quantBytes : ℕ) (architecture : String) (outputStride : ℕ)
      (inputResolution : ℕ × ℕ) (multiplier : ℚ)
  | blazeMediapipe (runtime : String) (modelType : Option String)
      (solutionPath : String)
  | blazeTfjs (runtime : String) (modelType : Option String)
  | moveNet (modelType : Option MoveNetModelType) (modelUrl : Option String)
deriving DecidableEq, Repr

/-- The `modelType` field of a MoveNet-style factory invocation, `none` for
the other option shapes. -/
def FactoryOptions.mnModelType : FactoryOptions → Option MoveNetModelType
  | .moveNet t _ => t
  | _ => none

/-- The `modelUrl` field of a MoveNet-style factory invocation, `none` for
the other option shapes. -/
def FactoryOptions.mnModelUrl : FactoryOptions → Option String
  | .moveNet _ u => u
  | _ => none

/-- The runtime component of a backend string: `STATE.backend.split("-")[0]`.
For the single-character separator "-" the first element of the split is
exactly the longest hyphen-free prefix of the string (the whole string
when it has no hyphen, and "" for the empty string, as in JS). -/
def runtimeOf (backend : String) : String :=
  String.mk (backend.toList.takeWhile (fun c => c ≠ '-'))

/-- The constant MediaPipe solution path of `index.js` line 58. -/
def solutionPath : String :=
  "https://cdn.jsdelivr.net/npm/@mediapipe/pose@0.4"

/-- The body of the `case MoveNet` arm of `createDetector` (lines 66-81):
derive a MoveNet model type from `STATE.modelConfig.type` (left undefined
when the string is none of the three known ones) and include `modelUrl`
exactly when `STATE.modelConfig.customModel` is non-empty.  Because the JS
`switch` falls through, this arm also runs for `BlazePose` with an
unrecognized runtime, with `model` still `BlazePose`. -/
def moveNetCase (model : SupportedModel) (cfg : ModelConfig) :
    SupportedModel × FactoryOptions :=
  let modelType : Option MoveNetModelType :=
    if cfg.type = some "lightning" then some MoveNetModelType.SINGLEPOSE_LIGHTNING
    else if cfg.type = some "thunder" then some MoveNetModelType.SINGLEPOSE_THUNDER
    else if cfg.type = some "multipose" then some MoveNetModelType.MULTIPOSE
    else none
  if cfg.customModel ≠ "" then
    (model, FactoryOptions.moveNet modelType (some cfg.customModel))
  else
    (model, FactoryOptions.moveNet modelType none)

/-- The demo's `createDetector` (lines 42-83), described as the pair
(model kind, options) passed to the `posedetection.createDetector` factory.
The `BlazePose` arm has no trailing `break`/`return` when the runtime is
neither "mediapipe" nor "tfjs", so control falls through into the `MoveNet`
arm. -/
def createDetector (model : SupportedModel) (backend : String)
    (cfg : ModelConfig) : SupportedModel × FactoryOptions :=
  match model with
  | SupportedModel.PoseNet =>
      (model, FactoryOptions.poseNet 4 "MobileNetV1" 16 (500, 500) (0.75 : ℚ))
  | SupportedModel.BlazePose =>
      let runtime := runtimeOf backend
      if runtime = "mediapipe" then
        (model, FactoryOptions.blazeMediapipe runtime cfg.type solutionPath)
      else if runtime = "tfjs" then
        (model, FactoryOptions.blazeTfjs runtime cfg.type)
      else
        moveNetCase model cfg
  | SupportedModel.MoveNet =>
      moveNetCase model cfg

/-- The stats accumulators of `index.js` lines 36-39: the pending inference
start time, the running latency sum, the running inference count and the
time of the last panel update. -/
structure StatsState where
  startInferenceTime : ℚ
  inferenceTimeSum : ℚ
  numInferences : ℕ
  lastPanelUpdate : ℚ
deriving DecidableEq, Repr

/-- `beginEstimatePosesStats` (lines 118-120): record the inference start
time. -/
def beginEstimatePosesStats (now : ℚ) (s : StatsState) : StatsState :=
  { s with startInferenceTime := now }

/-- `endEstimatePosesStats` (lines 122-138): accumulate the finished
inference's latency and count; when at least `panelUpdateMilliseconds`
(1000) elapsed since the last panel update, report `1000 / average` to the
FPS panel and reset the accumulators.  The optional second component is the
value passed to `stats.customFpsPanel.update`. -/
def endEstimatePosesStats (now : ℚ) (s : StatsState) :
    StatsState × Option ℚ :=
  let inferenceTimeSum := s.inferenceTimeSum + (now - s.startInferenceTime)
  let numInferences := s.numInferences + 1
  if now - s.lastPanelUpdate ≥ 1000 then
    let averageInferenceTime := inferenceTimeSum / (numInferences : ℚ)
    ({ s with inferenceTimeSum := 0, numInferences := 0,
              lastPanelUpdate := now },
     some (1000 / averageInferenceTime))
  else
    ({ s with inferenceTimeSum := inferenceTimeSum,
              numInferences := numInferences }, none)

/-- Run the stats pair (`beginEstimatePosesStats` then
`endEstimatePosesStats`) over a list of inference (start, end) wall-clock
samples, collecting every report emitted to the FPS panel. -/
def runStats : List (ℚ × ℚ) → StatsState → StatsState × List ℚ
  | [], s => (s, [])
  | (b, e) :: rest, s =>
      let s1 := beginEstimatePosesStats b s
      let (s2, r) := endEstimatePosesStats e s1
      let (s3, rs) := runStats rest s2
      (s3, r.toList ++ rs)

/-- One keypoint of a detected pose. -/
structure Keypoint where
  x : ℚ
  y : ℚ
  score : ℚ
deriving DecidableEq, Repr

/-- One detected pose of a `PoseResult` list. -/
structure Pose where
  keypoints : List Keypoint
deriving DecidableEq, Repr

/-- The boolean change flags of the shared `STATE` record.
`isModelChanged` doubles as the reconfiguration-in-progress gate: the
reconciliation branch sets it `true` before replacing the detector and the
render step refuses to overlay while it is set. -/
structure Flags where
  isModelChanged : Bool
  isFlagChanged : Bool
  isBackendChanged : Bool
  isTargetFPSChanged : Bool
  isSizeOptionChanged : Bool
deriving DecidableEq, Repr

/-- The orchestrator's mutable state at one observable instant: the change
flags, the `detector` module variable (the id of the referenced handle or
`null`), the set of handle ids constructed and not yet disposed, a fresh-id
counter for the asynchronous factory, and whether a scheduled animation
frame is pending (`rafId`). -/
structure World where
  flags : Flags
  detector : Option ℕ
  live : List ℕ
  nextId : ℕ
  rafPending : Bool
deriving DecidableEq, Repr

/-- One observable effect of a tick, labelling each instant of the trace. -/
inductive Action where
  | cameraSetup
  | setGate
  | cancelRaf
  | disposeOld (i : ℕ)
  | applyBackendAndFlags
  | constructOk (i : ℕ)
  | constructFail
  | alertError
  | clearModelFlags
  | renderTick
  | reschedule
deriving DecidableEq, Repr

/-- The world after a list of labelled steps, starting from `w` (the world
attached to the last step, or `w` when there is none). -/
def lastW (w : World) : List (Action × World) → World
  | [] => w
  | p :: ps => lastW p.2 ps

/-- The capture branch of `checkGuiUpdate` (lines 86-90): when the target
FPS or size option changed, reinitialize the camera and clear those two
flags.  The camera does not touch the detector lifecycle state. -/
def cameraSteps (w : World) : List (Action × World) :=
  if w.flags.isTargetFPSChanged || w.flags.isSizeOptionChanged then
    [(Action.cameraSetup,
      { w with flags := { w.flags with isTargetFPSChanged := false,
                                       isSizeOptionChanged := false } })]
  else []

/-- The model branch of `checkGuiUpdate` (lines 92-115).  When any of the
three model-relevant flags is set: set the in-progress gate
(`STATE.isModelChanged = true`), cancel the pending animation frame,
dispose the current detector handle if there is one (the `detector`
reference itself is not written here), apply backend and environment flags
when the flag or backend changed, then construct the new detector.  The
environment chooses the construction outcome `ok`; on success the fresh
handle `nextId` is created and assigned, on failure the reference is set
to `null` and the error alerted.  Finally the three flags are cleared. -/
def modelSteps (ok : Bool) (w : World) : List (Action × World) :=
  if w.flags.isModelChanged || w.flags.isFlagChanged || w.flags.isBackendChanged then
    let w2 := { w with flags := { w.flags with isModelChanged := true } }
    let w3 := { w2 with rafPending := false }
    let dispSteps : List (Action × World) :=
      match w.detector with
      | some i => [(Action.disposeOld i, { w3 with live := w3.live.erase i })]
      | none => []
    let w4 := lastW w3 dispSteps
    let applySteps : List (Action × World) :=
      if w.flags.isFlagChanged || w.flags.isBackendChanged then
        [(Action.applyBackendAndFlags, w4)]
      else []
    let constructSteps : List (Action × World) :=
      if ok then
        [(Action.constructOk w4.nextId,
          { w4 with detector := some w4.nextId, live := w4.nextId :: w4.live,
                    nextId := w4.nextId + 1 })]
      else
        [(Action.constructFail, { w4 with detector := none }),
         (Action.alertError, { w4 with detector := none })]
    let w5 := lastW w4 constructSteps
    (Action.setGate, w2) :: (Action.cancelRaf, w3) ::
      (dispSteps ++ applySteps ++ constructSteps ++
        [(Action.clearModelFlags,
          { w5 with flags := { w5.flags with isFlagChanged := false,
                                             isBackendChanged := false,
                                             isModelChanged := false } })])
  else []

/-- `checkGuiUpdate` (lines 85-116): the capture branch followed by the
model branch, as a trace of labelled observable instants. -/
def checkGuiUpdate (ok : Bool) (w : World) : List (Action × World) :=
  cameraSteps w ++ modelSteps ok (lastW w (cameraSteps w))

/-- The options record passed to `detector.estimatePoses` (lines 160-163). -/
structure EstimationOptions where
  maxPoses : ℕ
  flipHorizontal : Bool
deriving DecidableEq, Repr

/-- The estimation options built at the `estimatePoses` call site:
`maxPoses` is read from `STATE.modelConfig.maxPoses` and the horizontal
flip flag is the literal `false`. -/
def estimateOptions (cfg : ModelConfig) : EstimationOptions :=
  { maxPoses := cfg.maxPoses, flipHorizontal := false }

/-- Everything observable about one execution of `renderResult`. -/
structure RenderOutcome where
  poses : Option (List Pose)
  optionsUsed : Option EstimationOptions
  detector : Option ℕ
  live : List ℕ
  alerted : Bool
  frameDrawn : Bool
  overlayDrawn : Bool
  indicatorsDrawn : Bool
deriving DecidableEq, Repr

/-- `renderResult` (lines 140-187).  `det` and `live` are the detector
reference and the live-handle set on entry; `gate0` is the value of
`STATE.isModelChanged` when `estimatePoses` is dispatched; `panelFlip`
models the external control panel setting `STATE.isModelChanged` during
the `await` of `estimatePoses` (the single-threaded event loop can run
panel handlers while the inference promise is pending), so the flag read
by line 181 is `gate0 || panelFlip`.  `outcome` is the environment-chosen
result of `estimatePoses`.  The raw frame (`camera.drawCtx`) and the
indicators (`camera.drawIndicators`) are drawn unconditionally; the
overlay (`camera.drawResults`/`drawIdeal`) is drawn only when the poses
list is non-null, non-empty and the gate read at line 181 is clear.  On an
inference error the handle is disposed, the reference nulled and the error
alerted. -/
def renderResult (cfg : ModelConfig) (det : Option ℕ) (live : List ℕ)
    (gate0 panelFlip : Bool) (outcome : Except String (List Pose)) :
    RenderOutcome :=
  let estPhase : Option (List Pose) × Option EstimationOptions × Option ℕ × List ℕ × Bool :=
    match det with
    | none => (none, none, none, live, false)
    | some i =>
        match outcome with
        | Except.ok ps => (some ps, some (estimateOptions cfg), some i, live, false)
        | Except.error _ =>
            (none, some (estimateOptions cfg), none, live.erase i, true)
  match estPhase with
  | (poses, used, det2, live2, alerted) =>
      let gateAtCheck := gate0 || panelFlip
      let overlay :=
        match poses with
        | some ps => decide (0 < ps.length) && !gateAtCheck
        | none => false
      { poses := poses, optionsUsed := used, detector := det2, live := live2,
        alerted := alerted, frameDrawn := true, overlayDrawn := overlay,
        indicatorsDrawn := true }

/-- The environment of one loop tick: the flags the control panel set since
the previous tick, the outcome of detector construction (should one
happen), the outcome of `estimatePoses` (should it be invoked), whether
the panel sets `isModelChanged` during the inference await, and the model
configuration read at the `estimatePoses` call site. -/
structure TickEnv where
  panel : Flags
  constructionOk : Bool
  estimate : Except String (List Pose)
  panelFlip : Bool
  cfg : ModelConfig
deriving Repr

/-- Merge the flags the panel set into the world (the panel only ever sets
flags to `true`; only the reconciliation step clears them). -/
def applyPanel (p : Flags) (w : World) : World :=
  { w with flags :=
      { isModelChanged := w.flags.isModelChanged || p.isModelChanged,
        isFlagChanged := w.flags.isFlagChanged || p.isFlagChanged,
        isBackendChanged := w.flags.isBackendChanged || p.isBackendChanged,
        isTargetFPSChanged := w.flags.isTargetFPSChanged || p.isTargetFPSChanged,
        isSizeOptionChanged := w.flags.isSizeOptionChanged || p.isSizeOptionChanged } }

/-- The conditional render part of `renderPrediction` (lines 192-194),
starting from the world `w1` left by `checkGuiUpdate`: unless a model
change is still flagged, run `renderResult` and commit its detector and
live-handle updates (plus any flag the panel set during the inference
await) back to the shared state. -/
def renderSteps (env : TickEnv) (w1 : World) : List (Action × World) :=
  if !w1.flags.isModelChanged then
    let r := renderResult env.cfg w1.detector w1.live w1.flags.isModelChanged
      env.panelFlip env.estimate
    [(Action.renderTick,
      { w1 with detector := r.detector, live := r.live,
                flags := { w1.flags with
                  isModelChanged := w1.flags.isModelChanged || env.panelFlip } })]
  else []

/-- `renderPrediction` (lines 189-197): run `checkGuiUpdate`, then, unless
a model change is still flagged, run `renderResult`, then reschedule via
`requestAnimationFrame`. -/
def renderPrediction (env : TickEnv) (w : World) : List (Action × World) :=
  let guiSteps := checkGuiUpdate env.constructionOk w
  let w1 := lastW w guiSteps
  guiSteps ++ renderSteps env w1 ++
    [(Action.reschedule,
      { lastW w1 (renderSteps env w1) with rafPending := true })]

/-- Run the loop over a sequence of tick environments, concatenating every
tick's trace of observable instants. -/
def run : List TickEnv → World → List (Action × World)
  | [], _ => []
  | e :: es, w =>
      let w1 := applyPanel e.panel w
      let steps := renderPrediction e w1
      steps ++ run es (lastW w1 steps)

/-- The orchestrator's well-formedness between ticks: the live handles are
exactly the one the `detector` variable references (if any), and every
live handle id is below the fresh-id counter. -/
def Inv (w : World) : Prop :=
  w.live = w.detector.toList ∧ ∀ i ∈ w.live, i < w.nextId

instance (w : World) : Decidable (Inv w) := by
  unfold Inv; infer_instance

/-- What `app` (lines 199-220) observably does: the alerts shown, whether
`renderPrediction` was ever called (the loop entered its running state),
and whether an error escaped `app` as an uncaught promise rejection. -/
structure AppOutcome where
  alerts : List String
  loopStarted : Bool
  uncaughtError : Bool
deriving DecidableEq, Repr

/-- `app` (lines 199-220).  `hasModelParam` is whether the query string
carries a `model` parameter; `cameraOk` is whether `Camera.setupCamera`
succeeds (modelled from the spec, the capture source's `setup` either
returns a source or fails with a `DeviceError` by throwing — the camera
module is outside this excerpt); `detectorOk` is whether the initial
`createDetector` succeeds.  Neither `setupCamera` nor `createDetector` is
wrapped in a `try`/`catch` inside `app`, so either failure escapes `app()`
as an uncaught rejection before `renderPrediction` is reached. -/
def app (hasModelParam : Bool) (cameraOk : Bool) (detectorOk : Bool) :
    AppOutcome :=
  if !hasModelParam then
    { alerts := ["Cannot find model in the query string."],
      loopStarted := false, uncaughtError := false }
  else if !cameraOk then
    { alerts := [], loopStarted := false, uncaughtError := true }
  else if !detectorOk then
    { alerts := [], loopStarted := false, uncaughtError := true }
  else
    { alerts := [], loopStarted := true, uncaughtError := false }

/-- Modelled from the spec: the claim about the inference options speaks of
"the horizontal-flip flag from the current configuration", but neither the
source's `STATE.modelConfig` (defined in `params.js`, outside this
excerpt) nor the spec's configuration surface (§6) defines such a field;
this record adjoins the flag the claim presumes to the configuration, so
the claim can be stated against it. -/
structure ConfigWithFlip where
  cfg : ModelConfig
  flipHorizontal : Bool
deriving DecidableEq, Repr

/-- A concrete pose (no keypoints), used as an inference result in
counterexamples and witnesses. -/
def samplePose : Pose := { keypoints := [] }

/-- A concrete configuration used in counterexamples and witnesses. -/
def sampleCfg : ModelConfig :=
  { type := some "lightning", customModel := "", maxPoses := 1 }

/-- A concrete configuration-with-flip whose horizontal-flip flag is set,
used to exhibit that the options passed to `estimatePoses` ignore it. -/
def flipCfg : ConfigWithFlip :=
  { cfg := { type := none, customModel := "", maxPoses := 5 },
    flipHorizontal := true }

/-- The world used by the C1 counterexample: one live detector handle,
referenced by `detector`, with a model change flagged. -/
def cexWorld : World :=
  { flags := { isModelChanged := true, isFlagChanged := false,
               isBackendChanged := false, isTargetFPSChanged := false,
               isSizeOptionChanged := false },
    detector := some 0, live := [0], nextId := 1, rafPending := true }

/-- The world used by the C2 witness: all three model-relevant flags set
and a live handle with id 5. -/
def c2World : World :=
  { flags := { isModelChanged := true, isFlagChanged := true,
               isBackendChanged := true, isTargetFPSChanged := false,
               isSizeOptionChanged := false },
    detector := some 5, live := [5], nextId := 6, rafPending := true }

/-- The world used by the C4 witness: only the backend-changed flag set
and a live handle with id 2. -/
def c4World : World :=
  { flags := { isModelChanged := false, isFlagChanged := false,
               isBackendChanged := true, isTargetFPSChanged := false,
               isSizeOptionChanged := false },
    detector := some 2, live := [2], nextId := 3, rafPending := true }

/-- No change flags set. -/
def noFlags : Flags :=
  { isModelChanged := false, isFlagChanged := false, isBackendChanged := false,
    isTargetFPSChanged := false, isSizeOptionChanged := false }

/-- Tick environments used by the C1 witness: a tick in which the panel
requests a model change and construction succeeds, followed by a tick in
which inference throws. -/
def c1Events : List TickEnv :=
  [{ panel := { noFlags with isModelChanged := true },
     constructionOk := true, estimate := Except.ok [samplePose],
     panelFlip := false, cfg := sampleCfg },
   { panel := noFlags, constructionOk := true,
     estimate := Except.error "bad model output", panelFlip := false,
     cfg := sampleCfg }]

/-! ## Helper lemmas -/

theorem lastW_append (w : World) (xs ys : List (Action × World)) :
    lastW w (xs ++ ys) = lastW (lastW w xs) ys := by
  induction xs generalizing w with
  | nil => rfl
  | cons p ps ih => simp [lastW, ih]

theorem runStats_append (xs ys : List (ℚ × ℚ)) (s : StatsState) :
    runStats (xs ++ ys) s =
      ((runStats ys (runStats xs s).1).1,
       (runStats xs s).2 ++ (runStats ys (runStats xs s).1).2) := by
  induction xs generalizing s with
  | nil => simp [runStats]
  | cons p rest ih =>
      obtain ⟨b, e⟩ := p
      simp [runStats, ih]

theorem runStats_no_report (samples : List (ℚ × ℚ)) (s : StatsState)
    (h : ∀ p ∈ samples, p.2 - s.lastPanelUpdate < 1000) :
    (runStats samples s).2 = [] ∧
    (runStats samples s).1.inferenceTimeSum =
      s.inferenceTimeSum + (samples.map (fun p => p.2 - p.1)).sum ∧
    (runStats samples s).1.numInferences = s.numInferences + samples.length ∧
    (runStats samples s).1.lastPanelUpdate = s.lastPanelUpdate := by
  induction samples generalizing s with
  | nil => simp [runStats]
  | cons p rest ih =>
      obtain ⟨b, e⟩ := p
      have hp : ¬(e - s.lastPanelUpdate ≥ 1000) := by
        have := h (b, e) (List.mem_cons_self _ _)
        simp only at this
        linarith
      have hmid :
          endEstimatePosesStats e (beginEstimatePosesStats b s) =
            ({ s with startInferenceTime := b,
                      inferenceTimeSum := s.inferenceTimeSum + (e - b),
                      numInferences := s.numInferences + 1 }, none) := by
        simp [endEstimatePosesStats, beginEstimatePosesStats, hp]
      have hrest := ih { s with startInferenceTime := b,
                                inferenceTimeSum := s.inferenceTimeSum + (e - b),
                                numInferences := s.numInferences + 1 }
        (by intro q hq; exact h q (List.mem_cons_of_mem _ hq))
      obtain ⟨h1, h2, h3, h4⟩ := hrest
      refine ⟨?_, ?_, ?_, ?_⟩ <;>
        simp [runStats, hmid, h1, h2, h3, h4] <;> ring

/-! ## Claim theorems -/

/-- C6: over any reporting interval containing `N ≥ 1` completed
inferences with (start, end) samples `ds ++ [(b, e)]` — the first `N - 1`
finishing before the 1000 ms reporting threshold, the last one at or past
it — the Stats Aggregator, started from freshly reset accumulators,
emits exactly one report equal to `1000 / (sum of durations / N)`, resets
its running sum and count to zero, the divisor `N` is positive, and an
interval with zero completed inferences emits no report at all. -/
theorem c6_stats_aggregator (ds : List (ℚ × ℚ)) (b e L : ℚ)
    (hin : ∀ p ∈ ds, p.2 - L < 1000) (hlast : e - L ≥ 1000) :
    (runStats (ds ++ [(b, e)]) ⟨0, 0, 0, L⟩).2 =
      [1000 / (((ds.map (fun p => p.2 - p.1)).sum + (e - b)) /
        ((ds.length + 1 : ℕ) : ℚ))] ∧
    (runStats (ds ++ [(b, e)]) ⟨0, 0, 0, L⟩).1.inferenceTimeSum = 0 ∧
    (runStats (ds ++ [(b, e)]) ⟨0, 0, 0, L⟩).1.numInferences = 0 ∧
    0 < ds.length + 1 ∧
    (runStats [] ⟨0, 0, 0, L⟩).2 = [] := by
  obtain ⟨h1, h2, h3, h4⟩ := runStats_no_report ds ⟨0, 0, 0, L⟩ (by simpa using hin)
  have hL : (runStats ds ⟨0, 0, 0, L⟩).1.lastPanelUpdate = L := by
    simpa using h4
  have hcond : (1000 : ℚ) ≤ e - (runStats ds ⟨0, 0, 0, L⟩).1.lastPanelUpdate := by
    rw [hL]
    linarith
  have hrep :
      endEstimatePosesStats e (beginEstimatePosesStats b (runStats ds ⟨0, 0, 0, L⟩).1) =
        ({ (runStats ds ⟨0, 0, 0, L⟩).1 with
             startInferenceTime := b, inferenceTimeSum := 0, numInferences := 0,
             lastPanelUpdate := e },
         some (1000 /
           (((runStats ds ⟨0, 0, 0, L⟩).1.inferenceTimeSum + (e - b)) /
             (((runStats ds ⟨0, 0, 0, L⟩).1.numInferences + 1 : ℕ) : ℚ)))) := by
    simp [endEstimatePosesStats, beginEstimatePosesStats, hcond]
  refine ⟨?_, ?_, ?_, by omega, rfl⟩ <;>
    simp [runStats_append, runStats, hrep, h1, h2, h3]

/-- Witness for C6: a concrete interval with two inferences of durations
500 and 700 ms, the second ending past the 1000 ms threshold. -/
theorem c6_stats_aggregator_witness :
    (∀ p ∈ [((0 : ℚ), (500 : ℚ))], p.2 - 0 < 1000) ∧
    (1200 : ℚ) - 0 ≥ 1000 ∧
    (runStats ([((0 : ℚ), (500 : ℚ))] ++ [((500 : ℚ), (1200 : ℚ))]) ⟨0, 0, 0, 0⟩).2 =
      [1000 / ((([((0 : ℚ), (500 : ℚ))].map (fun p => p.2 - p.1)).sum + (1200 - 500)) /
        (([((0 : ℚ), (500 : ℚ))].length + 1 : ℕ) : ℚ))] :=
  ⟨by intro p hp; simp only [List.mem_singleton] at hp; subst hp; norm_num,
   by norm_num,
   (c6_stats_aggregator [((0 : ℚ), (500 : ℚ))] 500 1200 0
      (by intro p hp; simp only [List.mem_singleton] at hp; subst hp; norm_num)
      (by norm_num)).1⟩

/-- C8: for the MoveNet model, the factory options carry
`SINGLEPOSE_LIGHTNING` when the configured type is "lightning" and
`SINGLEPOSE_THUNDER` when it is "thunder", and they carry a `modelUrl`
equal to the configured custom model URL exactly when the `customModel`
string is non-empty. -/
theorem c8_movenet_factory_options (backend : String) (cfg : ModelConfig) :
    (cfg.type = some "lightning" →
      ((createDetector SupportedModel.MoveNet backend cfg).2).mnModelType =
        some MoveNetModelType.SINGLEPOSE_LIGHTNING) ∧
    (cfg.type = some "thunder" →
      ((createDetector SupportedModel.MoveNet backend cfg).2).mnModelType =
        some MoveNetModelType.SINGLEPOSE_THUNDER) ∧
    (∀ u : String,
      ((createDetector SupportedModel.MoveNet backend cfg).2).mnModelUrl = some u ↔
        (cfg.customModel ≠ "" ∧ u = cfg.customModel)) := by
  refine ⟨?_, ?_, ?_⟩
  · intro h
    by_cases hc : cfg.customModel = "" <;>
      simp [createDetector, moveNetCase, h, hc, FactoryOptions.mnModelType]
  · intro h
    by_cases hc : cfg.customModel = "" <;>
      simp [createDetector, moveNetCase, h, hc, FactoryOptions.mnModelType]
  · intro u
    by_cases hc : cfg.customModel = "" <;>
      simp [createDetector, moveNetCase, hc, FactoryOptions.mnModelUrl, eq_comm]

/-- Witness for C8: Scenario A (lightning, no custom model) and Scenario B
(thunder, custom URL). -/
theorem c8_movenet_factory_options_witness :
    ((createDetector SupportedModel.MoveNet "tfjs-webgl"
        { type := some "lightning", customModel := "", maxPoses := 1 }).2).mnModelType =
      some MoveNetModelType.SINGLEPOSE_LIGHTNING ∧
    ((createDetector SupportedModel.MoveNet "tfjs-webgl"
        { type := some "thunder", customModel := "https://x/model.json",
          maxPoses := 1 }).2).mnModelType =
      some MoveNetModelType.SINGLEPOSE_THUNDER ∧
    (((createDetector SupportedModel.MoveNet "tfjs-webgl"
        { type := some "thunder", customModel := "https://x/model.json",
          maxPoses := 1 }).2).mnModelUrl = some "https://x/model.json" ↔
      (("https://x/model.json" : String) ≠ "" ∧
        ("https://x/model.json" : String) = "https://x/model.json")) :=
  ⟨(c8_movenet_factory_options "tfjs-webgl"
      { type := some "lightning", customModel := "", maxPoses := 1 }).1 rfl,
   (c8_movenet_factory_options "tfjs-webgl"
      { type := some "thunder", customModel := "https://x/model.json",
        maxPoses := 1 }).2.1 rfl,
   (c8_movenet_factory_options "tfjs-webgl"
      { type := some "thunder", customModel := "https://x/model.json",
        maxPoses := 1 }).2.2 "https://x/model.json"⟩

/-- C10: for BlazePose with a backend whose runtime component is neither
"mediapipe" nor "tfjs", `createDetector` falls through the switch into the
MoveNet arm: the factory is invoked with the BlazePose model kind but
MoveNet-style options, whose `modelType` is derived from
`modelConfig.type` and is undefined when the type is none of "lightning",
"thunder", "multipose". -/
theorem c10_blazepose_fallthrough (backend : String) (cfg : ModelConfig)
    (h1 : runtimeOf backend ≠ "mediapipe") (h2 : runtimeOf backend ≠ "tfjs") :
    createDetector SupportedModel.BlazePose backend cfg =
      moveNetCase SupportedModel.BlazePose cfg ∧
    (createDetector SupportedModel.BlazePose backend cfg).1 =
      SupportedModel.BlazePose ∧
    (cfg.type ≠ some "lightning" → cfg.type ≠ some "thunder" →
      cfg.type ≠ some "multipose" →
      ((createDetector SupportedModel.BlazePose backend cfg).2).mnModelType =
        none) ∧
    ((createDetector SupportedModel.BlazePose backend cfg).2).mnModelUrl =
      (if cfg.customModel ≠ "" then some cfg.customModel else none) := by
  have hcd : createDetector SupportedModel.BlazePose backend cfg =
      moveNetCase SupportedModel.BlazePose cfg := by
    simp [createDetector, h1, h2]
  refine ⟨hcd, ?_, ?_, ?_⟩
  · rw [hcd]
    by_cases hc : cfg.customModel = "" <;> simp [moveNetCase, hc]
  · intro ht1 ht2 ht3
    rw [hcd]
    by_cases hc : cfg.customModel = "" <;>
      simp [moveNetCase, ht1, ht2, ht3, hc, FactoryOptions.mnModelType]
  · rw [hcd]
    by_cases hc : cfg.customModel = "" <;>
      simp [moveNetCase, hc, FactoryOptions.mnModelUrl]

/-- Witness for C10: backend "webgl" (runtime "webgl"), BlazePose type
"heavy": the factory is invoked with the BlazePose kind and MoveNet-style
options with undefined `modelType` and no `modelUrl`. -/
theorem c10_blazepose_fallthrough_witness :
    runtimeOf "webgl" ≠ "mediapipe" ∧ runtimeOf "webgl" ≠ "tfjs" ∧
    (createDetector SupportedModel.BlazePose "webgl"
        { type := some "heavy", customModel := "", maxPoses := 5 } =
      moveNetCase SupportedModel.BlazePose
        { type := some "heavy", customModel := "", maxPoses := 5 }) ∧
    ((createDetector SupportedModel.BlazePose "webgl"
        { type := some "heavy", customModel := "", maxPoses := 5 }).2).mnModelType =
      none :=
  ⟨by decide, by decide,
   (c10_blazepose_fallthrough "webgl"
      { type := some "heavy", customModel := "", maxPoses := 5 }
      (by decide) (by decide)).1,
   (c10_blazepose_fallthrough "webgl"
      { type := some "heavy", customModel := "", maxPoses := 5 }
      (by decide) (by decide)).2.2.1 (by decide) (by decide) (by decide)⟩

/-- C9 counterexample: when the query string has a model but camera setup
throws, `app` shows no alert at all — the claim that the failure is
reported to the user-visible channel is false; the rejection escapes
uncaught instead. -/
theorem c9_counterexample :
    (app true false true).alerts = [] ∧
    (app true false true).loopStarted = false ∧
    (app true false true).uncaughtError = true :=
  ⟨rfl, rfl, rfl⟩

/-- C9 amended: if capture device setup throws during startup, the loop
driver never enters the running state (the render loop is never scheduled
and there is no automatic retry), but the failure is not reported to the
user-visible channel: it escapes `app()` as an uncaught rejection. -/
theorem c9_camera_failure_no_loop (detectorOk : Bool) :
    (app true false detectorOk).loopStarted = false ∧
    (app true false detectorOk).uncaughtError = true ∧
    (app true false detectorOk).alerts = [] :=
  ⟨rfl, rfl, rfl⟩

/-- C3 counterexample: with the gate clear at dispatch time, a detector
present and a non-empty inference result, but the panel flipping the
model-changed flag during the inference await, the overlay is not drawn —
the source gates the overlay on the flag read after the await (line 181),
not on its value at dispatch time, so the claimed iff fails at this
input. -/
theorem c3_counterexample :
    (renderResult sampleCfg (some 0) [0] false true
        (Except.ok [samplePose])).poses = some [samplePose] ∧
    0 < [samplePose].length ∧
    ¬((renderResult sampleCfg (some 0) [0] false true
        (Except.ok [samplePose])).overlayDrawn = true) := by
  refine ⟨rfl, by decide, ?_⟩
  decide

/-- C3 amended: in every render step the raw frame and the auxiliary
indicators are rendered unconditionally, and the pose overlay is drawn iff
the result is non-null, non-empty, and the in-progress gate is false when
the overlay condition is evaluated after inference resolves — i.e. it was
false at dispatch and the panel did not set it during the inference
await. -/
theorem c3_render_gating (cfg : ModelConfig) (det : Option ℕ) (live : List ℕ)
    (gate0 panelFlip : Bool) (outcome : Except String (List Pose)) :
    (renderResult cfg det live gate0 panelFlip outcome).frameDrawn = true ∧
    (renderResult cfg det live gate0 panelFlip outcome).indicatorsDrawn = true ∧
    ((renderResult cfg det live gate0 panelFlip outcome).overlayDrawn = true ↔
      ∃ ps, (renderResult cfg det live gate0 panelFlip outcome).poses = some ps ∧
        0 < ps.length ∧ (gate0 || panelFlip) = false) := by
  cases det with
  | none => simp [renderResult]
  | some i =>
      cases outcome with
      | error msg => simp [renderResult]
      | ok ps =>
          refine ⟨rfl, rfl, ?_⟩
          simp [renderResult, Bool.and_eq_true, Bool.not_eq_true',
            Bool.or_eq_false_iff, and_comm]

/-- C5: when `estimatePoses` throws, the render step disposes the detector
handle, nulls the reference, alerts the failure, produces a null pose
result for the tick, still draws the raw frame with no overlay, and the
loop is not terminated: every tick, this one included, ends by
rescheduling itself. -/
theorem c5_inference_failure_degrades (cfg : ModelConfig) (i : ℕ)
    (live : List ℕ) (gate0 panelFlip : Bool) (msg : String) :
    (renderResult cfg (some i) live gate0 panelFlip
        (Except.error msg)).detector = none ∧
    (renderResult cfg (some i) live gate0 panelFlip
        (Except.error msg)).live = live.erase i ∧
    (renderResult cfg (some i) live gate0 panelFlip
        (Except.error msg)).alerted = true ∧
    (renderResult cfg (some i) live gate0 panelFlip
        (Except.error msg)).poses = none ∧
    (renderResult cfg (some i) live gate0 panelFlip
        (Except.error msg)).frameDrawn = true ∧
    (renderResult cfg (some i) live gate0 panelFlip
        (Except.error msg)).overlayDrawn = false ∧
    (∀ (env : TickEnv) (w : World),
      (lastW w (renderPrediction env w)).rafPending = true) := by
  refine ⟨rfl, rfl, rfl, rfl, rfl, rfl, ?_⟩
  intro env w
  simp [renderPrediction, lastW_append, lastW]

/-- C7 counterexample: with the horizontal-flip flag of the (spec-claimed)
configuration set to `true`, the options actually passed to
`estimatePoses` carry `flipHorizontal = false`: the flip flag is the
literal `false`, not a configuration value, so the claim fails at this
input. -/
theorem c7_counterexample :
    (renderResult flipCfg.cfg (some 0) [0] false false
        (Except.ok [])).optionsUsed =
      some { maxPoses := 5, flipHorizontal := false } ∧
    flipCfg.flipHorizontal = true ∧
    ¬((renderResult flipCfg.cfg (some 0) [0] false false
        (Except.ok [])).optionsUsed =
      some { maxPoses := 5, flipHorizontal := flipCfg.flipHorizontal }) := by
  refine ⟨rfl, rfl, ?_⟩
  decide

/-- C7 amended: on every tick in which the detector is invoked, the
options passed to `estimatePoses` carry the maximum-poses bound from the
current configuration and a horizontal-flip flag that is constantly
`false` (not read from configuration). -/
theorem c7_estimate_options (cfg : ModelConfig) (i : ℕ) (live : List ℕ)
    (gate0 panelFlip : Bool) (outcome : Except String (List Pose)) :
    (renderResult cfg (some i) live gate0 panelFlip outcome).optionsUsed =
      some { maxPoses := cfg.maxPoses, flipHorizontal := false } := by
  cases outcome <;> rfl

/-- C2: whenever the model, flag or backend change flag is set at the
start of a reconciliation step, the step performs, in order: set the
in-progress gate, cancel the pending scheduled tick, dispose the existing
detector handle if one exists, apply runtime backend/flags (exactly when
the flag or backend changed) before construction, then construct the new
detector; and on successful construction the in-progress gate and all
three flags are clear at the end of the step. -/
theorem c2_reconciliation_order (ok : Bool) (w : World)
    (h : (w.flags.isModelChanged || w.flags.isFlagChanged ||
      w.flags.isBackendChanged) = true) :
    (modelSteps ok w).map Prod.fst =
      [Action.setGate, Action.cancelRaf] ++
      (match w.detector with
        | some i => [Action.disposeOld i]
        | none => []) ++
      (if w.flags.isFlagChanged || w.flags.isBackendChanged then
        [Action.applyBackendAndFlags] else []) ++
      (if ok then [Action.constructOk w.nextId]
       else [Action.constructFail, Action.alertError]) ++
      [Action.clearModelFlags] ∧
    (ok = true →
      (lastW w (modelSteps ok w)).flags.isModelChanged = false ∧
      (lastW w (modelSteps ok w)).flags.isFlagChanged = false ∧
      (lastW w (modelSteps ok w)).flags.isBackendChanged = false) := by
  constructor
  · cases hdet : w.detector <;>
      by_cases hf : (w.flags.isFlagChanged || w.flags.isBackendChanged) = true <;>
      cases ok <;>
      simp [modelSteps, h, hdet, hf, lastW]
  · rintro rfl
    cases hdet : w.detector <;>
      by_cases hf : (w.flags.isFlagChanged || w.flags.isBackendChanged) = true <;>
      simp [modelSteps, h, hdet, hf, lastW, lastW_append]

/-- Witness for C2: a concrete step with all three flags set, an existing
handle with id 5, and successful construction. -/
theorem c2_reconciliation_order_witness :
    (c2World.flags.isModelChanged || c2World.flags.isFlagChanged ||
      c2World.flags.isBackendChanged) = true ∧
    ((modelSteps true c2World).map Prod.fst =
      [Action.setGate, Action.cancelRaf, Action.disposeOld 5,
       Action.applyBackendAndFlags, Action.constructOk 6,
       Action.clearModelFlags]) := by
  refine ⟨by decide, ?_⟩
  have h := (c2_reconciliation_order true c2World (by decide)).1
  simpa [c2World] using h

/-- C4: when detector construction fails during a reconciliation step, the
step nulls the detector reference, surfaces the failure through the alert
channel, still clears the in-progress gate, and a subsequent render step
on the resulting state draws the raw frame and no overlay. -/
theorem c4_construction_failure (w : World)
    (h : (w.flags.isModelChanged || w.flags.isFlagChanged ||
      w.flags.isBackendChanged) = true) :
    (lastW w (modelSteps false w)).detector = none ∧
    Action.alertError ∈ (modelSteps false w).map Prod.fst ∧
    (lastW w (modelSteps false w)).flags.isModelChanged = false ∧
    (∀ (cfg : ModelConfig) (panelFlip : Bool)
        (outcome : Except String (List Pose)),
      (renderResult cfg (lastW w (modelSteps false w)).detector
          (lastW w (modelSteps false w)).live false panelFlip
          outcome).frameDrawn = true ∧
      (renderResult cfg (lastW w (modelSteps false w)).detector
          (lastW w (modelSteps false w)).live false panelFlip
          outcome).overlayDrawn = false) := by
  have hfin : (lastW w (modelSteps false w)).detector = none ∧
      (lastW w (modelSteps false w)).flags.isModelChanged = false := by
    cases hdet : w.detector <;>
      by_cases hf : (w.flags.isFlagChanged || w.flags.isBackendChanged) = true <;>
      simp [modelSteps, h, hdet, hf, lastW]
  have hmem : Action.alertError ∈ (modelSteps false w).map Prod.fst := by
    cases hdet : w.detector <;>
      by_cases hf : (w.flags.isFlagChanged || w.flags.isBackendChanged) = true <;>
      simp [modelSteps, h, hdet, hf]
  refine ⟨hfin.1, hmem, hfin.2, ?_⟩
  intro cfg panelFlip outcome
  rw [hfin.1]
  exact ⟨rfl, rfl⟩

/-- Witness for C4: a concrete failing reconciliation starting from a
world with only the backend-changed flag set and a live handle. -/
theorem c4_construction_failure_witness :
    (c4World.flags.isModelChanged || c4World.flags.isFlagChanged ||
      c4World.flags.isBackendChanged) = true ∧
    (lastW c4World (modelSteps false c4World)).detector = none ∧
    Action.alertError ∈ (modelSteps false c4World).map Prod.fst ∧
    (lastW c4World (modelSteps false c4World)).flags.isModelChanged = false := by
  have h := c4_construction_failure c4World (by decide)
  exact ⟨by decide, h.1, h.2.1, h.2.2.1⟩

theorem inv_live_len (w : World) (hInv : Inv w) : w.live.length ≤ 1 := by
  obtain ⟨hl, _⟩ := hInv
  rw [hl]
  cases w.detector <;> simp

theorem cameraSteps_bounded (w : World) (hInv : Inv w) :
    (∀ p ∈ cameraSteps w, p.2.live.length ≤ 1) ∧
    Inv (lastW w (cameraSteps w)) := by
  obtain ⟨hl, hb⟩ := hInv
  by_cases hc : (w.flags.isTargetFPSChanged || w.flags.isSizeOptionChanged) = true
  · have hcs : cameraSteps w =
        [(Action.cameraSetup,
          { w with flags := { w.flags with isTargetFPSChanged := false,
                                           isSizeOptionChanged := false } })] := by
      simp [cameraSteps, hc]
    rw [hcs]
    constructor
    · intro p hp
      rw [List.mem_singleton] at hp
      subst hp
      exact inv_live_len w ⟨hl, hb⟩
    · exact ⟨hl, hb⟩
  · have hcs : cameraSteps w = [] := by simp [cameraSteps, hc]
    rw [hcs]
    exact ⟨by simp, hl, hb⟩

theorem modelSteps_bounded (ok : Bool) (w : World) (hInv : Inv w) :
    (∀ p ∈ modelSteps ok w, p.2.live.length ≤ 1) ∧
    Inv (lastW w (modelSteps ok w)) := by
  obtain ⟨hl, hb⟩ := hInv
  by_cases h : (w.flags.isModelChanged || w.flags.isFlagChanged ||
      w.flags.isBackendChanged) = true
  · cases hdet : w.detector with
    | none =>
        have hl0 : w.live = [] := by rw [hl, hdet]; rfl
        by_cases hf : (w.flags.isFlagChanged || w.flags.isBackendChanged) = true <;>
          cases ok <;>
          constructor <;>
          simp [modelSteps, h, hdet, hf, hl0, lastW, Inv]
    | some i =>
        have hl1 : w.live = [i] := by rw [hl, hdet]; rfl
        by_cases hf : (w.flags.isFlagChanged || w.flags.isBackendChanged) = true <;>
          cases ok <;>
          constructor <;>
          simp [modelSteps, h, hdet, hf, hl1, lastW, Inv]
  · have h0 : modelSteps ok w = [] := by simp [modelSteps, h]
    rw [h0]
    exact ⟨by simp, hl, hb⟩

theorem checkGuiUpdate_bounded (ok : Bool) (w : World) (hInv : Inv w) :
    (∀ p ∈ checkGuiUpdate ok w, p.2.live.length ≤ 1) ∧
    Inv (lastW w (checkGuiUpdate ok w)) := by
  obtain ⟨hcam, hinv1⟩ := cameraSteps_bounded w hInv
  obtain ⟨hmodel, hinv2⟩ := modelSteps_bounded ok _ hinv1
  constructor
  · intro p hp
    rw [checkGuiUpdate, List.mem_append] at hp
    rcases hp with hp | hp
    exacts [hcam p hp, hmodel p hp]
  · rw [checkGuiUpdate, lastW_append]
    exact hinv2

theorem renderResult_preserves (cfg : ModelConfig) (det : Option ℕ)
    (live : List ℕ) (gate0 panelFlip : Bool)
    (outcome : Except String (List Pose)) (h : live = det.toList) :
    (renderResult cfg det live gate0 panelFlip outcome).live =
      (renderResult cfg det live gate0 panelFlip outcome).detector.toList ∧
    ∀ j ∈ (renderResult cfg det live gate0 panelFlip outcome).live,
      j ∈ live := by
  cases det with
  | none => simpa [renderResult] using h
  | some i =>
      cases outcome with
      | ok ps => simp [renderResult, h]
      | error msg => simp [renderResult, h]

theorem renderSteps_bounded (env : TickEnv) (w : World) (hInv : Inv w) :
    (∀ p ∈ renderSteps env w, p.2.live.length ≤ 1) ∧
    Inv (lastW w (renderSteps env w)) := by
  obtain ⟨hl, hb⟩ := hInv
  by_cases hm : w.flags.isModelChanged = true
  · have h0 : renderSteps env w = [] := by simp [renderSteps, hm]
    rw [h0]
    exact ⟨by simp, hl, hb⟩
  · obtain ⟨hr1, hr2⟩ := renderResult_preserves env.cfg w.detector w.live
      w.flags.isModelChanged env.panelFlip env.estimate hl
    have hlen : (renderResult env.cfg w.detector w.live
        w.flags.isModelChanged env.panelFlip env.estimate).live.length ≤ 1 := by
      rw [hr1]
      cases (renderResult env.cfg w.detector w.live w.flags.isModelChanged
        env.panelFlip env.estimate).detector <;> simp
    constructor
    · intro p hp
      simp only [renderSteps, hm, Bool.not_false, if_pos, List.mem_singleton] at hp
      rw [hp]
      exact hlen
    · have hstep : renderSteps env w =
          [(Action.renderTick,
            { w with
                detector := (renderResult env.cfg w.detector w.live
                  w.flags.isModelChanged env.panelFlip env.estimate).detector,
                live := (renderResult env.cfg w.detector w.live
                  w.flags.isModelChanged env.panelFlip env.estimate).live,
                flags := { w.flags with
                  isModelChanged := w.flags.isModelChanged || env.panelFlip } })] := by
        simp [renderSteps, hm]
      rw [hstep]
      refine ⟨hr1, ?_⟩
      intro j hj
      exact hb j (hr2 j hj)

theorem renderPrediction_bounded (env : TickEnv) (w : World) (hInv : Inv w) :
    (∀ p ∈ renderPrediction env w, p.2.live.length ≤ 1) ∧
    Inv (lastW w (renderPrediction env w)) := by
  obtain ⟨hgui, hinv1⟩ := checkGuiUpdate_bounded env.constructionOk w hInv
  obtain ⟨hrend, hinv2⟩ := renderSteps_bounded env _ hinv1
  obtain ⟨hl2, hb2⟩ := hinv2
  constructor
  · intro p hp
    rw [renderPrediction] at hp
    simp only [List.append_assoc, List.mem_append, List.mem_singleton] at hp
    rcases hp with hp | hp | hp
    · exact hgui p hp
    · exact hrend p hp
    · rw [hp]
      exact inv_live_len _ ⟨hl2, hb2⟩
  · rw [renderPrediction, lastW_append, lastW_append]
    exact ⟨hl2, hb2⟩

theorem run_bounded (events : List TickEnv) (w : World) (hInv : Inv w) :
    ∀ p ∈ run events w, p.2.live.length ≤ 1 := by
  induction events generalizing w with
  | nil => simp [run]
  | cons e es ih =>
      have hp : Inv (applyPanel e.panel w) := by
        obtain ⟨hl, hb⟩ := hInv
        exact ⟨hl, hb⟩
      obtain ⟨hstep, hfin⟩ := renderPrediction_bounded e (applyPanel e.panel w) hp
      intro p hmem
      rw [run, List.mem_append] at hmem
      rcases hmem with hmem | hmem
      exacts [hstep p hmem, ih _ hfin p hmem]

/-- C1 counterexample: starting from a well-formed world with a live
referenced handle (id 0) and a flagged model change, the reconciliation
trace contains an instant — after the old handle was disposed and before
the new one (id 1) was constructed — at which the `detector` variable
still references the disposed handle 0.  This refutes the claim that the
reference is cleared before the new detector is constructed (so that no
disposed handle is ever referenced): the source disposes the old handle
but leaves `detector` pointing at it until the construction `await`
resolves. -/
theorem c1_counterexample :
    Inv cexWorld ∧
    ∃ p ∈ checkGuiUpdate true cexWorld,
      p.2.detector = some 0 ∧ 0 ∉ p.2.live ∧ 1 ∉ p.2.live := by
  constructor
  · decide
  · decide

/-- C1 amended: for every sequence of configuration-change events and tick
environments, starting from a well-formed world, at most one detector
handle is alive at every observed instant of the run — an existing handle
is always disposed before a new one is constructed, so handles never
double up, though the `detector` reference is only overwritten (on
success) or nulled (on failure) rather than cleared before
construction. -/
theorem c1_at_most_one_live_handle (events : List TickEnv) (w : World)
    (hInv : Inv w) :
    w.live.length ≤ 1 ∧ ∀ p ∈ run events w, p.2.live.length ≤ 1 := by
  constructor
  · obtain ⟨hl, _⟩ := hInv
    rw [hl]
    cases w.detector <;> simp
  · exact run_bounded events w hInv

/-- Witness for C1: a concrete two-tick run (a successful model change,
then a failing inference) from a well-formed world with one live
handle. -/
theorem c1_at_most_one_live_handle_witness :
    Inv cexWorld ∧
    (cexWorld.live.length ≤ 1 ∧
      ∀ p ∈ run c1Events cexWorld, p.2.live.length ≤ 1) :=
  ⟨by decide, c1_at_most_one_live_handle c1Events cexWorld (by decide)⟩

end LiveVideo
